import Mathlib

/-!
Shallow embedding of x-pack/libbeat/management/managerV2.go: the
BeatV2Manager unit-reconciliation manager. Pure Go values (unit IDs,
configs, payloads) are modelled by opaque tokens; the external
collaborators (reload dispatcher, config transforms, agent client) are a
record of functions; every externally observable action of the manager is
recorded in a trace of effects, in execution order.
-/

namespace ManagerV2

/-- Raw configuration payload carried by a unit, opaque to the manager. -/
abbrev RawConfig := Nat

/-- Grouped output reload configuration produced by groupByOutputs. -/
abbrev ReloadCfg := Nat

/-- Beat input reload configuration produced by generateBeatConfig. -/
abbrev BeatCfg := Nat

/-- Agent identity metadata returned by client.AgentInfo. -/
abbrev AgentInfo := Nat

/-- Opaque payload mapping set through SetPayload. -/
abbrev Payload := Nat

/-- Opaque action descriptor forwarded by RegisterAction. -/
abbrev ActionDesc := Nat

/-- client.UnitState: the status states a unit can report or expect. -/
inductive UnitState where
  | starting
  | configuring
  | healthy
  | degraded
  | failed
  | stopping
  | stopped
deriving DecidableEq, Repr

/-- client.UnitType: the kind of a unit. -/
inductive UnitType where
  | input
  | output
deriving DecidableEq, Repr

/-- client.Unit as seen by the manager: identifier, kind, and the desired
state and raw configuration returned by Expected(). -/
structure ClientUnit where
  id : String
  type : UnitType
  expectedState : UnitState
  rawConfig : RawConfig
deriving DecidableEq, Repr

/-- One externally observable action of the manager, in execution order:
a status push onto a unit (UpdateState), the invocation of the registered
stop callback, stopping the agent client connection, forwarding an action
descriptor to a unit, or a Go nil-pointer panic. -/
inductive Effect where
  | statusPush (unitId : String) (st : UnitState) (msg : String) (payload : Option Payload)
  | stopCallback
  | clientStop
  | actionForward (unitId : String) (a : ActionDesc)
  | crash (msg : String)
deriving DecidableEq, Repr

/-- External collaborators consumed by the manager: the two config
transforms, the reload registry (GetReloadable / GetReloadableList, each
resolved target exposing Reload which returns an error or nil), and the
agent identity. -/
structure Env where
  groupByOutputs : RawConfig → Except String ReloadCfg
  getReloadable : String → Option (ReloadCfg → Option String)
  getReloadableList : String → Option (BeatCfg → Option String)
  generateBeatConfig : RawConfig → AgentInfo → Except String BeatCfg
  agentInfo : AgentInfo

/-- BeatV2Manager state: the unit registry (Go map modelled as an
association list with first-match lookup), the main-unit designation
(empty string when unset, as in the source), the SetPayload payload (none
models a nil Go map), whether a stop callback is registered, the
sync.Once guard for the stop callback, and the running flag. -/
structure MgrState where
  units : List (String × ClientUnit)
  mainUnit : String
  payload : Option Payload
  stopFunc : Bool
  beatStopDone : Bool
  isRunning : Bool
deriving DecidableEq, Repr

/-- Go map lookup units[k]: first binding for the key, none when absent. -/
def mapGet (m : List (String × ClientUnit)) (k : String) : Option ClientUnit :=
  match m.find? (fun p => p.1 == k) with
  | some p => some p.2
  | none => none

/-- Go map assignment units[k] = v: replaces any existing binding. -/
def mapSet (m : List (String × ClientUnit)) (k : String) (v : ClientUnit) :
    List (String × ClientUnit) :=
  (k, v) :: m.filter (fun p => !(p.1 == k))

/-- Go delete(units, k). -/
def mapDel (m : List (String × ClientUnit)) (k : String) : List (String × ClientUnit) :=
  m.filter (fun p => !(p.1 == k))

/-- State of a freshly constructed manager (NewV2AgentManagerWithClient):
empty registry, main unit unset, nil payload, no stop callback, the
sync.Once unarmed, not running. -/
def initState : MgrState :=
  { units := [], mainUnit := "", payload := none,
    stopFunc := false, beatStopDone := false, isRunning := false }

/-- addUnit: insert the unit into the registry keyed by its ID. -/
def addUnit (s : MgrState) (u : ClientUnit) : MgrState :=
  { s with units := mapSet s.units u.id u }

/-- getUnit: registry lookup by unit ID. The Go original returns a nil
pointer when the key is absent; here the absence is an explicit none. -/
def getUnit (s : MgrState) (id : String) : Option ClientUnit :=
  mapGet s.units id

/-- deleteUnit: remove the unit from the registry by its ID. -/
def deleteUnit (s : MgrState) (u : ClientUnit) : MgrState :=
  { s with units := mapDel s.units u.id }

/-- setMainUnitValue: designate the unit as the main unit only if none is
set yet; the empty string is the source code sentinel for unset. -/
def setMainUnitValue (s : MgrState) (u : ClientUnit) : MgrState :=
  if s.mainUnit = "" then { s with mainUnit := u.id } else s

/-- SetPayload: store the payload to attach to later UpdateStatus pushes. -/
def setPayload (s : MgrState) (p : Payload) : MgrState :=
  { s with payload := some p }

/-- SetStopCallback: register the stop callback. -/
def setStopCallback (s : MgrState) : MgrState :=
  { s with stopFunc := true }

/-- UpdateStatus: push a status for the main unit, attaching the stored
payload. When the main unit is unset or absent from the registry, the Go
source calls UpdateState through a nil *client.Unit; the external
client.Unit method locks the unit mutex through its receiver, so that
call panics — modelled as a crash effect instead of a status push. -/
def updateStatus (s : MgrState) (st : UnitState) (msg : String) : List Effect :=
  match getUnit s s.mainUnit with
  | some u => [Effect.statusPush u.id st msg s.payload]
  | none => [Effect.crash "nil pointer dereference in client.Unit.UpdateState"]

/-- RegisterAction: forward the action descriptor to the main unit. When
the main unit is unset or absent, the Go source calls RegisterAction
through a nil *client.Unit obtained from the map, which panics in the
external method body — modelled as a crash effect. -/
def registerAction (s : MgrState) (a : ActionDesc) : List Effect :=
  match mapGet s.units s.mainUnit with
  | some u => [Effect.actionForward u.id a]
  | none => [Effect.crash "nil pointer dereference in client.Unit.RegisterAction"]

/-- UnregisterAction: mirror image of RegisterAction, same nil-receiver
behaviour when the main unit is unset or absent. -/
def unregisterAction (s : MgrState) (a : ActionDesc) : List Effect :=
  match mapGet s.units s.mainUnit with
  | some u => [Effect.actionForward u.id a]
  | none => [Effect.crash "nil pointer dereference in client.Unit.UnregisterAction"]

/-- beatStop.Do: the sync.Once guard around the stop callback. Runs the
callback only the first time, then stays burnt. -/
def onceDo (s : MgrState) : MgrState × List Effect :=
  if s.beatStopDone then (s, [])
  else ({ s with beatStopDone := true }, [Effect.stopCallback])

/-- stopBeat: the shutdown sequence for one unit. Returns immediately if
not running; otherwise marks not running, pushes Stopping to the unit,
runs the stop callback through the once guard if one is registered, stops
the client connection, and pushes Stopped — in that order. Both shutdown
pushes pass a nil payload, as in the source. -/
def stopBeat (s : MgrState) (u : ClientUnit) : MgrState × List Effect :=
  if s.isRunning then
    let s1 := { s with isRunning := false }
    let r := if s1.stopFunc then onceDo s1 else (s1, [])
    (r.1, Effect.statusPush u.id UnitState.stopping "stopping beat" none
            :: (r.2 ++ [Effect.clientStop,
                  Effect.statusPush u.id UnitState.stopped "stopped beat" none]))
  else (s, [])

/-- Stop: look up the main unit in the registry and run the shutdown
sequence on it; a no-op when the lookup finds nothing. -/
def stop (s : MgrState) : MgrState × List Effect :=
  match getUnit s s.mainUnit with
  | some u => stopBeat s u
  | none => (s, [])

/-- handleOutputReload: transform the raw config with groupByOutputs,
resolve the non-list reloadable named output, push Configuring, reload,
and report Failed or Healthy; every push passes a nil payload. -/
def handleOutputReload (env : Env) (s : MgrState) (u : ClientUnit) :
    MgrState × List Effect :=
  match env.groupByOutputs u.rawConfig with
  | Except.error e =>
      (s, [Effect.statusPush u.id UnitState.failed
            ("Failed to generate config for output: " ++ e) none])
  | Except.ok cfg =>
      match env.getReloadable "output" with
      | none =>
          (s, [Effect.statusPush u.id UnitState.failed
                "failed to find beat reloadable type \x27output\x27" none])
      | some target =>
          match target cfg with
          | some e =>
              (s, [Effect.statusPush u.id UnitState.configuring
                    "reloading output component" none,
                   Effect.statusPush u.id UnitState.failed
                    ("Failed to reload component: " ++ e) none])
          | none =>
              (s, [Effect.statusPush u.id UnitState.configuring
                    "reloading output component" none,
                   Effect.statusPush u.id UnitState.healthy
                    "reloaded output component" none])

/-- handleInputReload: designate the main unit if unset, resolve the
list reloadable named input, push Configuring, transform the raw config
with generateBeatConfig plus the agent identity, reload, and report
Failed or Healthy; every push passes a nil payload. -/
def handleInputReload (env : Env) (s : MgrState) (u : ClientUnit) :
    MgrState × List Effect :=
  let s1 := setMainUnitValue s u
  match env.getReloadableList "input" with
  | none =>
      (s1, [Effect.statusPush u.id UnitState.failed
             "failed to find beat reloadable type \x27input\x27" none])
  | some obj =>
      match env.generateBeatConfig u.rawConfig env.agentInfo with
      | Except.error e =>
          (s1, [Effect.statusPush u.id UnitState.configuring
                 "found reloader for \x27input\x27" none,
                Effect.statusPush u.id UnitState.failed
                 ("Failed to create Unit config: " ++ e) none])
      | Except.ok cfg =>
          match obj cfg with
          | some e =>
              (s1, [Effect.statusPush u.id UnitState.configuring
                     "found reloader for \x27input\x27" none,
                    Effect.statusPush u.id UnitState.failed
                     ("Error reloading input: " ++ e) none])
          | none =>
              (s1, [Effect.statusPush u.id UnitState.configuring
                     "found reloader for \x27input\x27" none,
                    Effect.statusPush u.id UnitState.healthy
                     "beat reloaded" none])

/-- handleUnitReload: insert the unit into the registry, then dispatch to
the kind-specific reload handler. -/
def handleUnitReload (env : Env) (s : MgrState) (u : ClientUnit) :
    MgrState × List Effect :=
  let s1 := addUnit s u
  match u.type with
  | UnitType.output => handleOutputReload env s1 u
  | UnitType.input => handleInputReload env s1 u

/-- One lifecycle event from the agent client, carrying its unit. -/
inductive UnitEvent where
  | added (u : ClientUnit)
  | modified (u : ClientUnit)
  | removed (u : ClientUnit)
deriving DecidableEq, Repr

/-- One iteration of the unitListen loop. Added: run the reload handler.
Modified: run the shutdown sequence first when the expected state is
Stopped, then always run the reload handler. Removed: delete the unit
from the registry, nothing else. -/
def step (env : Env) (s : MgrState) : UnitEvent → MgrState × List Effect
  | UnitEvent.added u => handleUnitReload env s u
  | UnitEvent.modified u =>
      let r1 := if u.expectedState = UnitState.stopped then stopBeat s u else (s, [])
      let r2 := handleUnitReload env r1.1 u
      (r2.1, r1.2 ++ r2.2)
  | UnitEvent.removed u => (deleteUnit s u, [])

/-- The unitListen loop over a finite event stream, accumulating the
trace of effects in execution order. -/
def run (env : Env) (s : MgrState) : List UnitEvent → MgrState × List Effect
  | [] => (s, [])
  | e :: es =>
      let r1 := step env s e
      let r2 := run env r1.1 es
      (r2.1, r1.2 ++ r2.2)

/-- A shutdown-relevant operation on the manager: a processed lifecycle
event, or an explicit Stop() call. -/
inductive MgrOp where
  | event (e : UnitEvent)
  | stopCall
deriving Repr

/-- Apply one manager operation. -/
def applyOp (env : Env) (s : MgrState) : MgrOp → MgrState × List Effect
  | MgrOp.event e => step env s e
  | MgrOp.stopCall => stop s

/-- Apply a sequence of manager operations, accumulating the trace. -/
def runOps (env : Env) (s : MgrState) : List MgrOp → MgrState × List Effect
  | [] => (s, [])
  | op :: ops =>
      let r1 := applyOp env s op
      let r2 := runOps env r1.1 ops
      (r2.1, r1.2 ++ r2.2)

/-! ## Trace and stream measurements -/

/-- Contribution of one effect to the stop-callback count. -/
def cbOne : Effect → Nat
  | Effect.stopCallback => 1
  | _ => 0

/-- Number of stop-callback invocations recorded in a trace. -/
def countCB (t : List Effect) : Nat := (t.map cbOne).sum

/-- Potential of the once guard: one when still unarmed has been burnt. -/
def doneN (s : MgrState) : Nat := if s.beatStopDone then 1 else 0

/-- Whether an effect is a terminal status push: Healthy or Failed. -/
def isTerminal : Effect → Bool
  | Effect.statusPush _ UnitState.healthy _ _ => true
  | Effect.statusPush _ UnitState.failed _ _ => true
  | _ => false

/-- Number of terminal status pushes recorded in a trace. -/
def countTerminal (t : List Effect) : Nat :=
  (t.map (fun e => if isTerminal e then 1 else 0)).sum

/-- Payload attached to an effect, when it is a status push. -/
def payloadOf : Effect → Option Payload
  | Effect.statusPush _ _ _ p => p
  | _ => none

/-- True when every status push in the trace carries a nil payload. -/
def allNilPayload (t : List Effect) : Bool :=
  t.all (fun e => (payloadOf e).isNone)

/-- The unit carried by a lifecycle event. -/
def eventUnit : UnitEvent → ClientUnit
  | UnitEvent.added u => u
  | UnitEvent.modified u => u
  | UnitEvent.removed u => u

/-- The Input unit whose reload handler this event runs, if any: Added
and Modified events of Input units run handleInputReload, Removed events
run nothing. -/
def isInputHandled : UnitEvent → Option ClientUnit
  | UnitEvent.added u => if u.type = UnitType.input then some u else none
  | UnitEvent.modified u => if u.type = UnitType.input then some u else none
  | UnitEvent.removed _ => none

/-- First Input unit whose reload handler a stream runs. -/
def firstInput? : List UnitEvent → Option ClientUnit
  | [] => none
  | e :: es =>
      match isInputHandled e with
      | some u => some u
      | none => firstInput? es

/-- Identifier of the first handled Input unit, or the unset sentinel. -/
def firstInputId (es : List UnitEvent) : String :=
  ((firstInput? es).map ClientUnit.id).getD ""

/-! ## Concrete fixtures used to instantiate the theorems -/

/-- An Input unit. -/
def uIn1 : ClientUnit :=
  { id := "in1", type := UnitType.input,
    expectedState := UnitState.healthy, rawConfig := 0 }

/-- A second Input unit. -/
def uIn2 : ClientUnit :=
  { id := "u2", type := UnitType.input,
    expectedState := UnitState.healthy, rawConfig := 0 }

/-- A third Input unit. -/
def uIn3 : ClientUnit :=
  { id := "u3", type := UnitType.input,
    expectedState := UnitState.healthy, rawConfig := 0 }

/-- An Output unit. -/
def uOut1 : ClientUnit :=
  { id := "out1", type := UnitType.output,
    expectedState := UnitState.healthy, rawConfig := 0 }

/-- An Input unit whose identifier is the empty string, which collides
with the unset sentinel of the main-unit designation. -/
def uEmptyId : ClientUnit :=
  { id := "", type := UnitType.input,
    expectedState := UnitState.healthy, rawConfig := 0 }

/-- An environment in which nothing resolves. -/
def envTriv : Env :=
  { groupByOutputs := fun _ => Except.error "no transform",
    getReloadable := fun _ => none,
    getReloadableList := fun _ => none,
    generateBeatConfig := fun _ _ => Except.error "no transform",
    agentInfo := 0 }

/-- An environment in which both reloadables resolve, both transforms
succeed and both reloads succeed. -/
def envOk : Env :=
  { groupByOutputs := fun c => Except.ok c,
    getReloadable := fun n => if n = "output" then some (fun _ => none) else none,
    getReloadableList := fun n => if n = "input" then some (fun _ => none) else none,
    generateBeatConfig := fun c _ => Except.ok c,
    agentInfo := 0 }

/-- An environment in which the output transform succeeds but the output
reloadable is unregistered. -/
def envNoOut : Env :=
  { groupByOutputs := fun c => Except.ok c,
    getReloadable := fun _ => none,
    getReloadableList := fun _ => none,
    generateBeatConfig := fun c _ => Except.ok c,
    agentInfo := 0 }

/-- A running manager: one Input unit registered and designated as the
main unit, a payload set, a stop callback registered, the once guard
unarmed. -/
def runningMgr : MgrState :=
  { units := [("in1", uIn1)], mainUnit := "in1", payload := some 7,
    stopFunc := true, beatStopDone := false, isRunning := true }

/-- A running manager whose designated main unit has been removed from
the registry. -/
def orphanMgr : MgrState :=
  { units := [], mainUnit := "in1", payload := none,
    stopFunc := true, beatStopDone := false, isRunning := true }

/-- A fresh manager on which SetPayload has been called. -/
def payloadMgr : MgrState := setPayload initState 7

/-- An event stream whose first handled Input unit is uIn1, followed by
another Input unit and the removal of uIn1. -/
def esW : List UnitEvent :=
  [UnitEvent.added uOut1, UnitEvent.added uIn1,
   UnitEvent.added uIn2, UnitEvent.removed uIn1]

/-- A continuation stream bringing yet another Input unit. -/
def esW2 : List UnitEvent := [UnitEvent.added uIn3, UnitEvent.modified uIn2]

/-! ## Registry lemmas -/

/-- Looking up a key right after setting it finds the new value. -/
theorem mapGet_mapSet_self (m : List (String × ClientUnit)) (k : String) (v : ClientUnit) :
    mapGet (mapSet m k v) k = some v := by
  simp [mapGet, mapSet, List.find?]

/-- Looking up a key right after deleting it finds nothing. -/
theorem mapGet_mapDel_self (m : List (String × ClientUnit)) (k : String) :
    mapGet (mapDel m k) k = none := by
  induction m with
  | nil => rfl
  | cons p t ih =>
      by_cases h : p.1 == k
      · simpa [mapDel, h] using ih
      · simpa [mapDel, mapGet, List.find?, h] using ih

/-! ## Counting stop-callback invocations -/

theorem countCB_append (t₁ t₂ : List Effect) :
    countCB (t₁ ++ t₂) = countCB t₁ + countCB t₂ := by
  simp [countCB]

/-- A trace of status pushes only contains no callback invocation. -/
theorem countCB_pushes (id : String) (st : UnitState) (msg : String)
    (p : Option Payload) : countCB [Effect.statusPush id st msg p] = 0 := rfl

/-! ## State characterizations of the handlers -/

/-- handleOutputReload never changes the manager state. -/
theorem handleOutputReload_fst (env : Env) (s : MgrState) (u : ClientUnit) :
    (handleOutputReload env s u).1 = s := by
  unfold handleOutputReload
  split
  · rfl
  · split
    · rfl
    · split <;> rfl

/-- handleInputReload changes the state only through setMainUnitValue. -/
theorem handleInputReload_fst (env : Env) (s : MgrState) (u : ClientUnit) :
    (handleInputReload env s u).1 = setMainUnitValue s u := by
  unfold handleInputReload
  split
  · rfl
  · split
    · rfl
    · split <;> rfl

/-- setMainUnitValue does not touch the registry. -/
theorem setMainUnitValue_units (s : MgrState) (u : ClientUnit) :
    (setMainUnitValue s u).units = s.units := by
  unfold setMainUnitValue
  split <;> rfl

/-- setMainUnitValue does not touch the stop-callback registration. -/
theorem setMainUnitValue_stopFunc (s : MgrState) (u : ClientUnit) :
    (setMainUnitValue s u).stopFunc = s.stopFunc := by
  unfold setMainUnitValue
  split <;> rfl

/-- setMainUnitValue does not touch the once guard. -/
theorem setMainUnitValue_beatStopDone (s : MgrState) (u : ClientUnit) :
    (setMainUnitValue s u).beatStopDone = s.beatStopDone := by
  unfold setMainUnitValue
  split <;> rfl

/-- setMainUnitValue does not touch the running flag. -/
theorem setMainUnitValue_isRunning (s : MgrState) (u : ClientUnit) :
    (setMainUnitValue s u).isRunning = s.isRunning := by
  unfold setMainUnitValue
  split <;> rfl

/-- setMainUnitValue does not touch the payload. -/
theorem setMainUnitValue_payload (s : MgrState) (u : ClientUnit) :
    (setMainUnitValue s u).payload = s.payload := by
  unfold setMainUnitValue
  split <;> rfl

/-- The registry after handleUnitReload: the unit has been inserted and
the kind-specific handlers leave the registry alone. -/
theorem handleUnitReload_units (env : Env) (s : MgrState) (u : ClientUnit) :
    (handleUnitReload env s u).1.units = mapSet s.units u.id u := by
  unfold handleUnitReload
  cases h : u.type <;>
    simp [h, handleOutputReload_fst, handleInputReload_fst,
      setMainUnitValue_units, addUnit]

/-- handleUnitReload leaves the shutdown-related fields untouched. -/
theorem handleUnitReload_shutdown_fields (env : Env) (s : MgrState) (u : ClientUnit) :
    (handleUnitReload env s u).1.stopFunc = s.stopFunc ∧
    (handleUnitReload env s u).1.beatStopDone = s.beatStopDone ∧
    (handleUnitReload env s u).1.isRunning = s.isRunning := by
  unfold handleUnitReload
  cases h : u.type <;>
    simp [h, handleOutputReload_fst, handleInputReload_fst,
      setMainUnitValue_stopFunc, setMainUnitValue_beatStopDone,
      setMainUnitValue_isRunning, addUnit]

/-- handleOutputReload never invokes the stop callback. -/
theorem handleOutputReload_countCB (env : Env) (s : MgrState) (u : ClientUnit) :
    countCB (handleOutputReload env s u).2 = 0 := by
  unfold handleOutputReload
  split
  · rfl
  · split
    · rfl
    · split <;> rfl

/-- handleInputReload never invokes the stop callback. -/
theorem handleInputReload_countCB (env : Env) (s : MgrState) (u : ClientUnit) :
    countCB (handleInputReload env s u).2 = 0 := by
  unfold handleInputReload
  split
  · rfl
  · split
    · rfl
    · split <;> rfl

/-- The reload handlers never invoke the stop callback. -/
theorem handleUnitReload_countCB (env : Env) (s : MgrState) (u : ClientUnit) :
    countCB (handleUnitReload env s u).2 = 0 := by
  unfold handleUnitReload
  cases h : u.type <;>
    simp [h, handleOutputReload_countCB, handleInputReload_countCB]

/-- When not running, the shutdown sequence is an identity no-op. -/
theorem stopBeat_not_running (s : MgrState) (u : ClientUnit)
    (h : s.isRunning = false) : stopBeat s u = (s, []) := by
  simp [stopBeat, h]

/-- When running and the once guard is unarmed, the shutdown sequence
marks not running, burns the once guard exactly when a callback is
registered, and emits Stopping, the optional callback, the client stop
and Stopped, in that order. -/
theorem stopBeat_running (s : MgrState) (u : ClientUnit)
    (hr : s.isRunning = true) (hd : s.beatStopDone = false) :
    stopBeat s u =
      ({ s with isRunning := false, beatStopDone := s.stopFunc },
       Effect.statusPush u.id UnitState.stopping "stopping beat" none
         :: ((if s.stopFunc then [Effect.stopCallback] else [])
              ++ [Effect.clientStop,
                  Effect.statusPush u.id UnitState.stopped "stopped beat" none])) := by
  cases s with
  | mk units mainUnit payload stopFunc beatStopDone isRunning =>
      simp only at hr hd
      subst hr hd
      cases stopFunc <;> simp [stopBeat, onceDo]

/-! ## The once guard bounds callback invocations -/

theorem doneN_le_one (s : MgrState) : doneN s ≤ 1 := by
  unfold doneN
  split <;> omega

/-- onceDo converts the unarmed guard into exactly one invocation. -/
theorem cb_onceDo (s : MgrState) :
    countCB (onceDo s).2 + doneN s = doneN (onceDo s).1 := by
  unfold onceDo doneN
  by_cases h : s.beatStopDone <;> simp [h, countCB, cbOne]

/-- The shutdown sequence invokes the callback at most once, paying for
the invocation by burning the once guard. -/
theorem cb_stopBeat (s : MgrState) (u : ClientUnit) :
    countCB (stopBeat s u).2 + doneN s ≤ doneN (stopBeat s u).1 := by
  by_cases hr : s.isRunning
  · by_cases hf : s.stopFunc
    · by_cases hd : s.beatStopDone <;>
        simp [stopBeat, onceDo, hr, hf, hd, countCB, cbOne, doneN]
    · simp [stopBeat, onceDo, hr, hf, countCB, cbOne, doneN]
  · simp [stopBeat, hr, countCB]

/-- One loop iteration invokes the callback at most once, paying for it
by burning the once guard. -/
theorem cb_step (env : Env) (s : MgrState) (e : UnitEvent) :
    countCB (step env s e).2 + doneN s ≤ doneN (step env s e).1 := by
  cases e with
  | added u =>
      have h1 := handleUnitReload_countCB env s u
      have h2 := (handleUnitReload_shutdown_fields env s u).2.1
      simp only [step]
      rw [h1]
      unfold doneN
      rw [h2]
      simp
  | modified u =>
      by_cases hs : u.expectedState = UnitState.stopped
      · have h1 := cb_stopBeat s u
        have h2 := handleUnitReload_countCB env (stopBeat s u).1 u
        have h3 := (handleUnitReload_shutdown_fields env (stopBeat s u).1 u).2.1
        simp only [step, hs, if_true, countCB_append]
        rw [h2]
        unfold doneN at h1 ⊢
        rw [h3]
        omega
      · have h1 := handleUnitReload_countCB env s u
        have h2 := (handleUnitReload_shutdown_fields env s u).2.1
        simp only [step, hs, if_false, countCB_append]
        rw [h1]
        unfold doneN
        rw [h2]
        simp [countCB]
  | removed u =>
      simp [step, countCB, doneN, deleteUnit]

/-- Stop() invokes the callback at most once, paying for it by burning
the once guard. -/
theorem cb_stop (s : MgrState) :
    countCB (stop s).2 + doneN s ≤ doneN (stop s).1 := by
  unfold stop
  cases h : getUnit s s.mainUnit with
  | some u => exact cb_stopBeat s u
  | none => simp [countCB]

/-- Any single manager operation invokes the callback at most once,
paying for it by burning the once guard. -/
theorem cb_applyOp (env : Env) (s : MgrState) (op : MgrOp) :
    countCB (applyOp env s op).2 + doneN s ≤ doneN (applyOp env s op).1 := by
  cases op with
  | event e => exact cb_step env s e
  | stopCall => exact cb_stop s

/-- Across any operation sequence, total callback invocations are
bounded by the burning of the once guard. -/
theorem cb_runOps (env : Env) (s : MgrState) (ops : List MgrOp) :
    countCB (runOps env s ops).2 + doneN s ≤ doneN (runOps env s ops).1 := by
  induction ops generalizing s with
  | nil => simp [runOps, countCB]
  | cons op ops ih =>
      have h1 := cb_applyOp env s op
      have h2 := ih (applyOp env s op).1
      simp only [runOps, countCB_append]
      omega

/-! ## Evolution of the main-unit designation -/

theorem isInputHandled_eventUnit (e : UnitEvent) (u : ClientUnit)
    (h : isInputHandled e = some u) : eventUnit e = u := by
  cases e with
  | added v =>
      by_cases ht : v.type = UnitType.input
      · simp only [isInputHandled, ht, if_true, Option.some.injEq] at h
        simpa [eventUnit] using h
      · simp [isInputHandled, ht] at h
  | modified v =>
      by_cases ht : v.type = UnitType.input
      · simp only [isInputHandled, ht, if_true, Option.some.injEq] at h
        simpa [eventUnit] using h
      · simp [isInputHandled, ht] at h
  | removed v => simp [isInputHandled] at h

/-- The shutdown sequence touches only the running flag and the once
guard: registry, main unit, payload and callback registration survive. -/
theorem stopBeat_frame (s : MgrState) (u : ClientUnit) :
    (stopBeat s u).1.units = s.units ∧
    (stopBeat s u).1.mainUnit = s.mainUnit ∧
    (stopBeat s u).1.payload = s.payload ∧
    (stopBeat s u).1.stopFunc = s.stopFunc := by
  by_cases hr : s.isRunning
  · by_cases hf : s.stopFunc
    · by_cases hd : s.beatStopDone <;> simp [stopBeat, onceDo, hr, hf, hd]
    · simp [stopBeat, onceDo, hr, hf]
  · simp [stopBeat, hr]

/-- How handleUnitReload moves the main-unit designation: an Input unit
claims it only when still unset; Output units never touch it. -/
theorem handleUnitReload_mainUnit (env : Env) (s : MgrState) (u : ClientUnit) :
    (handleUnitReload env s u).1.mainUnit =
      if u.type = UnitType.input then
        (if s.mainUnit = "" then u.id else s.mainUnit)
      else s.mainUnit := by
  cases h : u.type <;>
    simp [handleUnitReload, h, handleOutputReload_fst, handleInputReload_fst,
      setMainUnitValue, addUnit, apply_ite MgrState.mainUnit]

/-- How one loop iteration moves the main-unit designation: when unset it
becomes the identifier of the Input unit the event handles, if any; once
set to a nonempty identifier it never moves. -/
theorem step_mainUnit (env : Env) (s : MgrState) (e : UnitEvent) :
    (step env s e).1.mainUnit =
      if s.mainUnit = "" then ((isInputHandled e).map ClientUnit.id).getD ""
      else s.mainUnit := by
  cases e with
  | added u =>
      by_cases ht : u.type = UnitType.input <;> by_cases hm : s.mainUnit = "" <;>
        simp [step, handleUnitReload_mainUnit, isInputHandled, ht, hm]
  | modified u =>
      by_cases hs : u.expectedState = UnitState.stopped <;>
        by_cases ht : u.type = UnitType.input <;> by_cases hm : s.mainUnit = "" <;>
          simp [step, handleUnitReload_mainUnit, isInputHandled,
            stopBeat_frame, ht, hm, hs]
  | removed u =>
      by_cases hm : s.mainUnit = "" <;>
        simp [step, deleteUnit, isInputHandled, hm]

/-- A nonempty main-unit designation survives any event stream. -/
theorem run_mainUnit_preserved (env : Env) (es : List UnitEvent) (s : MgrState)
    (h : s.mainUnit ≠ "") : (run env s es).1.mainUnit = s.mainUnit := by
  induction es generalizing s with
  | nil => rfl
  | cons e es ih =>
      have h1 := step_mainUnit env s e
      rw [if_neg h] at h1
      simp only [run]
      rw [ih (step env s e).1 (h1 ▸ h), h1]

/-- From an unset designation, a stream of events whose units all carry
nonempty identifiers leaves the main unit at the identifier of the first
handled Input unit, or unset if there is none. -/
theorem run_mainUnit_of_unset (env : Env) (es : List UnitEvent) (s : MgrState)
    (hm : s.mainUnit = "") (h : ∀ u ∈ es.map eventUnit, u.id ≠ "") :
    (run env s es).1.mainUnit = firstInputId es := by
  induction es generalizing s with
  | nil => simpa [run, firstInputId, firstInput?] using hm
  | cons e es ih =>
      have h1 := step_mainUnit env s e
      rw [if_pos hm] at h1
      cases hi : isInputHandled e with
      | some u =>
          have hid : u.id ≠ "" := by
            have := isInputHandled_eventUnit e u hi
            exact this ▸ h (eventUnit e) (by simp)
          rw [hi] at h1
          simp only [Option.map, Option.getD] at h1
          simp only [run]
          rw [run_mainUnit_preserved env es (step env s e).1 (h1 ▸ hid), h1]
          simp [firstInputId, firstInput?, hi]
      | none =>
          rw [hi] at h1
          simp only [Option.map, Option.getD] at h1
          simp only [run]
          rw [ih (step env s e).1 h1 (fun u hu => h u (by simp at hu ⊢; exact Or.inr hu))]
          simp [firstInputId, firstInput?, hi]

/-- Once a stream has a first handled Input unit, appending more events
does not change it. -/
theorem firstInput?_append (es es' : List UnitEvent) (u : ClientUnit)
    (h : firstInput? es = some u) : firstInput? (es ++ es') = some u := by
  induction es with
  | nil => cases h
  | cons e es ih =>
      cases hi : isInputHandled e with
      | some v =>
          simp only [firstInput?, hi] at h
          simp [firstInput?, hi, h]
      | none =>
          simp only [firstInput?, hi] at h
          simp only [List.cons_append, firstInput?, hi]
          exact ih h

/-! ## Terminal statuses and payloads of the handlers -/

/-- Every branch of handleOutputReload pushes exactly one terminal
status. -/
theorem handleOutputReload_countTerminal (env : Env) (s : MgrState) (u : ClientUnit) :
    countTerminal (handleOutputReload env s u).2 = 1 := by
  unfold handleOutputReload
  split
  · rfl
  · split
    · rfl
    · split <;> rfl

/-- Every branch of handleInputReload pushes exactly one terminal
status. -/
theorem handleInputReload_countTerminal (env : Env) (s : MgrState) (u : ClientUnit) :
    countTerminal (handleInputReload env s u).2 = 1 := by
  unfold handleInputReload
  split
  · rfl
  · split
    · rfl
    · split <;> rfl

/-- Every invocation of the reload handler, of either kind and under any
environment, pushes exactly one terminal status. -/
theorem handleUnitReload_countTerminal (env : Env) (s : MgrState) (u : ClientUnit) :
    countTerminal (handleUnitReload env s u).2 = 1 := by
  unfold handleUnitReload
  cases h : u.type <;>
    simp [h, handleOutputReload_countTerminal, handleInputReload_countTerminal]

/-- Every status push of handleOutputReload passes a nil payload. -/
theorem handleOutputReload_nilPayload (env : Env) (s : MgrState) (u : ClientUnit) :
    allNilPayload (handleOutputReload env s u).2 = true := by
  unfold handleOutputReload
  split
  · rfl
  · split
    · rfl
    · split <;> rfl

/-- Every status push of handleInputReload passes a nil payload. -/
theorem handleInputReload_nilPayload (env : Env) (s : MgrState) (u : ClientUnit) :
    allNilPayload (handleInputReload env s u).2 = true := by
  unfold handleInputReload
  split
  · rfl
  · split
    · rfl
    · split <;> rfl

/-- Every status push of the reload handler passes a nil payload. -/
theorem handleUnitReload_nilPayload (env : Env) (s : MgrState) (u : ClientUnit) :
    allNilPayload (handleUnitReload env s u).2 = true := by
  unfold handleUnitReload
  cases h : u.type <;>
    simp [h, handleOutputReload_nilPayload, handleInputReload_nilPayload]

/-- Every status push of the shutdown sequence passes a nil payload. -/
theorem stopBeat_nilPayload (s : MgrState) (u : ClientUnit) :
    allNilPayload (stopBeat s u).2 = true := by
  by_cases hr : s.isRunning
  · by_cases hf : s.stopFunc
    · by_cases hd : s.beatStopDone <;>
        simp [stopBeat, onceDo, hr, hf, hd, allNilPayload, payloadOf]
    · simp [stopBeat, onceDo, hr, hf, allNilPayload, payloadOf]
  · simp [stopBeat, hr, allNilPayload]

/-! ## Stop called twice -/

/-- From a running state with the once guard unarmed, a registered stop
callback and the main unit present, two successive Stop() calls invoke
the callback exactly once. -/
theorem stop_twice_helper (env : Env) (s : MgrState) (u : ClientUnit)
    (hd : s.beatStopDone = false) (hr : s.isRunning = true)
    (hf : s.stopFunc = true) (hu : getUnit s s.mainUnit = some u) :
    countCB (runOps env s [MgrOp.stopCall, MgrOp.stopCall]).2 = 1 := by
  have h1 : stop s = stopBeat s u := by
    unfold stop
    rw [hu]
  have h2 := stopBeat_running s u hr hd
  have h3 : getUnit { s with isRunning := false, beatStopDone := s.stopFunc } s.mainUnit
      = some u := hu
  have h4 : stop { s with isRunning := false, beatStopDone := s.stopFunc } =
      ({ s with isRunning := false, beatStopDone := s.stopFunc }, []) := by
    unfold stop
    rw [h3]
    exact stopBeat_not_running _ u rfl
  simp only [runOps, applyOp, h1, h2, h4]
  simp [countCB, cbOne, hf]

/-! ## The claims -/

/-- C1: the claim says that with no designated main unit (mainUnit unset,
or set to an identifier absent from the registry) UpdateStatus,
RegisterAction and UnregisterAction are silent no-ops that do not crash.
The code instead calls UpdateState / RegisterAction / UnregisterAction
through the nil unit pointer the registry lookup returns, which panics
inside the external method; this theorem evaluates the model at those
failing inputs: each call produces a crash, not a silent no-op. -/
theorem claim_C1_missing_main_unit_crashes :
    updateStatus initState UnitState.healthy "status msg"
      = [Effect.crash "nil pointer dereference in client.Unit.UpdateState"]
    ∧ registerAction initState 0
      = [Effect.crash "nil pointer dereference in client.Unit.RegisterAction"]
    ∧ unregisterAction initState 0
      = [Effect.crash "nil pointer dereference in client.Unit.UnregisterAction"]
    ∧ updateStatus orphanMgr UnitState.healthy "status msg"
      = [Effect.crash "nil pointer dereference in client.Unit.UpdateState"]
    ∧ registerAction orphanMgr 0
      = [Effect.crash "nil pointer dereference in client.Unit.RegisterAction"] :=
  ⟨rfl, rfl, rfl, rfl, rfl⟩

/-- C2 counterexample: the claim as stated fails when a unit identifier
is the empty string, because the code uses the empty string as the unset
sentinel. After the first Input unit (identifier empty) is handled the
designation equals its identifier, yet a later Input unit reassigns it. -/
theorem claim_C2_counterexample :
    (run envTriv initState [UnitEvent.added uEmptyId]).1.mainUnit = uEmptyId.id
    ∧ (run envTriv initState
        [UnitEvent.added uEmptyId, UnitEvent.added uIn2]).1.mainUnit ≠ uEmptyId.id := by
  constructor
  · rfl
  · decide

/-- C2 (amended: all unit identifiers nonempty): over any processed event
stream whose unit identifiers are all nonempty, the main-unit designation
equals the identifier of the first handled Input-kind unit (unset when
there is none), and once set it is never reassigned by any continuation
of the stream — not by later Input units and not by removals. -/
theorem claim_C2_first_input_wins (env : Env) (es es2 : List UnitEvent)
    (h : ∀ u ∈ (es ++ es2).map eventUnit, u.id ≠ "") :
    (run env initState es).1.mainUnit = firstInputId es
    ∧ (firstInputId es ≠ "" →
        (run env initState (es ++ es2)).1.mainUnit = firstInputId es) := by
  have hes : ∀ u ∈ es.map eventUnit, u.id ≠ "" := by
    intro u hu
    apply h u
    simp only [List.map_append, List.mem_append]
    exact Or.inl hu
  constructor
  · exact run_mainUnit_of_unset env es initState rfl hes
  · intro hne
    have hall := run_mainUnit_of_unset env (es ++ es2) initState rfl h
    cases hv : firstInput? es with
    | none =>
        exact absurd (by simp [firstInputId, hv]) hne
    | some v =>
        rw [hall]
        unfold firstInputId
        rw [firstInput?_append es es2 v hv, hv]

/-- C2 witness: a concrete stream with an Output unit first, two Input
units, a removal of the designated unit and a continuation with further
Input units; the designation is and stays the first Input identifier. -/
theorem claim_C2_witness :
    (∀ u ∈ (esW ++ esW2).map eventUnit, u.id ≠ "")
    ∧ (run envTriv initState esW).1.mainUnit = firstInputId esW
    ∧ firstInputId esW ≠ ""
    ∧ (run envTriv initState (esW ++ esW2)).1.mainUnit = firstInputId esW := by
  have h := claim_C2_first_input_wins envTriv esW esW2 (by decide)
  exact ⟨by decide, h.1, by decide, h.2 (by decide)⟩

/-- C3: over any sequence of manager operations (explicit Stop calls and
arbitrary lifecycle events, including Modified events whose desired state
is Stopped) starting with the once guard unarmed, the stop callback runs
at most once; and from a running state with the callback registered and
the main unit present, Stop called twice invokes it exactly once. -/
theorem claim_C3_stop_callback_at_most_once (env : Env) (s : MgrState)
    (ops : List MgrOp) (u : ClientUnit) (hd : s.beatStopDone = false) :
    countCB (runOps env s ops).2 ≤ 1
    ∧ (s.isRunning = true → s.stopFunc = true → getUnit s s.mainUnit = some u →
        countCB (runOps env s [MgrOp.stopCall, MgrOp.stopCall]).2 = 1) := by
  constructor
  · have h1 := cb_runOps env s ops
    have h2 := doneN_le_one (runOps env s ops).1
    have h3 : doneN s = 0 := by simp [doneN, hd]
    omega
  · exact fun hr hf hu => stop_twice_helper env s u hd hr hf hu

/-- C3 witness: a concrete running manager on which two Stop calls plus
an interleaved event stream fire the callback exactly once. -/
theorem claim_C3_witness :
    runningMgr.beatStopDone = false
    ∧ countCB (runOps envTriv runningMgr
        [MgrOp.stopCall, MgrOp.event (UnitEvent.added uIn2), MgrOp.stopCall]).2 ≤ 1
    ∧ countCB (runOps envTriv runningMgr [MgrOp.stopCall, MgrOp.stopCall]).2 = 1 := by
  refine ⟨rfl, ?_, ?_⟩
  · exact (claim_C3_stop_callback_at_most_once envTriv runningMgr
      [MgrOp.stopCall, MgrOp.event (UnitEvent.added uIn2), MgrOp.stopCall] uIn1 rfl).1
  · exact (claim_C3_stop_callback_at_most_once envTriv runningMgr
      [MgrOp.stopCall, MgrOp.stopCall] uIn1 rfl).2 rfl rfl rfl

/-- C4: the shutdown sequence for a unit is a strict no-op when the
running flag is false; otherwise it marks the manager not running and
emits, in order, a Stopping push to the unit, the stop callback when one
is registered, the client-connection stop, and a Stopped push. -/
theorem claim_C4_shutdown_sequence (s : MgrState) (u : ClientUnit)
    (hd : s.beatStopDone = false) :
    (s.isRunning = false → stopBeat s u = (s, []))
    ∧ (s.isRunning = true →
        stopBeat s u =
          ({ s with isRunning := false, beatStopDone := s.stopFunc },
           Effect.statusPush u.id UnitState.stopping "stopping beat" none
             :: ((if s.stopFunc then [Effect.stopCallback] else [])
                  ++ [Effect.clientStop,
                      Effect.statusPush u.id UnitState.stopped "stopped beat" none]))) :=
  ⟨fun hr => stopBeat_not_running s u hr, fun hr => stopBeat_running s u hr hd⟩

/-- C4 witness: the shutdown sequence on a concrete running manager with
a registered callback produces exactly the four effects in order. -/
theorem claim_C4_witness :
    runningMgr.beatStopDone = false
    ∧ runningMgr.isRunning = true
    ∧ stopBeat runningMgr uIn1 =
        ({ runningMgr with isRunning := false, beatStopDone := true },
         [Effect.statusPush "in1" UnitState.stopping "stopping beat" none,
          Effect.stopCallback, Effect.clientStop,
          Effect.statusPush "in1" UnitState.stopped "stopped beat" none]) := by
  refine ⟨rfl, rfl, ?_⟩
  have h := (claim_C4_shutdown_sequence runningMgr uIn1 rfl).2 rfl
  rw [h]
  decide

/-- C5: every invocation of the reload handler, of either kind and under
any environment, pushes exactly one terminal status (Healthy or Failed);
and for an Input unit whose dispatcher resolution, config transformation
and reload all succeed, the pushed sequence is exactly Configuring then
Healthy. -/
theorem claim_C5_reload_terminal (env : Env) (s : MgrState) (u : ClientUnit)
    (obj : BeatCfg → Option String) (cfg : BeatCfg)
    (hty : u.type = UnitType.input)
    (h1 : env.getReloadableList "input" = some obj)
    (h2 : env.generateBeatConfig u.rawConfig env.agentInfo = Except.ok cfg)
    (h3 : obj cfg = none) :
    (∀ (env2 : Env) (s2 : MgrState) (u2 : ClientUnit),
        countTerminal (handleUnitReload env2 s2 u2).2 = 1)
    ∧ (handleUnitReload env s u).2 =
        [Effect.statusPush u.id UnitState.configuring
          "found reloader for \x27input\x27" none,
         Effect.statusPush u.id UnitState.healthy "beat reloaded" none] := by
  constructor
  · exact handleUnitReload_countTerminal
  · simp [handleUnitReload, hty, handleInputReload, h1, h2, h3]

/-- C5 witness: a concrete Input unit in the all-success environment
pushes exactly Configuring then Healthy, and terminal counts are one. -/
theorem claim_C5_witness :
    uIn1.type = UnitType.input
    ∧ countTerminal (handleUnitReload envOk initState uIn1).2 = 1
    ∧ (handleUnitReload envOk initState uIn1).2 =
        [Effect.statusPush "in1" UnitState.configuring
          "found reloader for \x27input\x27" none,
         Effect.statusPush "in1" UnitState.healthy "beat reloaded" none] := by
  have h := claim_C5_reload_terminal envOk initState uIn1 (fun _ => none) 0
    rfl rfl rfl rfl
  exact ⟨rfl, h.1 envOk initState uIn1, by simpa [uIn1] using h.2⟩

/-- C6: for a Modified event, when the desired state is Stopped the
shutdown sequence runs synchronously for that unit first and the reload
handler is then dispatched on the resulting state; for any other desired
state the event is exactly a reload-handler dispatch. -/
theorem claim_C6_modified_dispatch (env : Env) (s : MgrState) (u : ClientUnit) :
    step env s (UnitEvent.modified u) =
      (if u.expectedState = UnitState.stopped then
        ((handleUnitReload env (stopBeat s u).1 u).1,
         (stopBeat s u).2 ++ (handleUnitReload env (stopBeat s u).1 u).2)
       else handleUnitReload env s u) := by
  by_cases hs : u.expectedState = UnitState.stopped <;> simp [step, hs]

/-- C7: the reload handler inserts the unit into the registry before any
kind-specific work, under every environment; in particular an Output unit
whose output reloadable is unregistered (with a successful config
transform) ends Failed with a message naming the missing reloadable, and
the registry still contains the unit. -/
theorem claim_C7_registry_insert_before_reload (env : Env) (s : MgrState)
    (u : ClientUnit) (cfg : ReloadCfg)
    (hty : u.type = UnitType.output)
    (h1 : env.groupByOutputs u.rawConfig = Except.ok cfg)
    (h2 : env.getReloadable "output" = none) :
    (∀ (env2 : Env) (s2 : MgrState) (u2 : ClientUnit),
        getUnit (handleUnitReload env2 s2 u2).1 u2.id = some u2)
    ∧ (handleUnitReload env s u).2 =
        [Effect.statusPush u.id UnitState.failed
          "failed to find beat reloadable type \x27output\x27" none]
    ∧ getUnit (handleUnitReload env s u).1 u.id = some u := by
  have hreg : ∀ (env2 : Env) (s2 : MgrState) (u2 : ClientUnit),
      getUnit (handleUnitReload env2 s2 u2).1 u2.id = some u2 := by
    intro env2 s2 u2
    unfold getUnit
    rw [handleUnitReload_units]
    exact mapGet_mapSet_self s2.units u2.id u2
  refine ⟨hreg, ?_, hreg env s u⟩
  simp [handleUnitReload, hty, handleOutputReload, h1, h2]

/-- C7 witness: a concrete Output unit in an environment with no output
reloadable registered ends Failed naming the reloadable and stays in the
registry. -/
theorem claim_C7_witness :
    uOut1.type = UnitType.output
    ∧ (handleUnitReload envNoOut initState uOut1).2 =
        [Effect.statusPush "out1" UnitState.failed
          "failed to find beat reloadable type \x27output\x27" none]
    ∧ getUnit (handleUnitReload envNoOut initState uOut1).1 "out1" = some uOut1 := by
  have h := claim_C7_registry_insert_before_reload envNoOut initState uOut1 0
    rfl rfl rfl
  exact ⟨rfl, by simpa [uOut1] using h.2.1, by simpa [uOut1] using h.2.2⟩

/-- C8: a Removed event deletes the unit from the registry, so lookups of
its identifier afterwards find nothing, and produces no reload dispatch
and no status push: its trace is empty and nothing else changes. -/
theorem claim_C8_removed_event (env : Env) (s : MgrState) (u : ClientUnit) :
    step env s (UnitEvent.removed u) = ({ s with units := mapDel s.units u.id }, [])
    ∧ getUnit (step env s (UnitEvent.removed u)).1 u.id = none := by
  constructor
  · rfl
  · show mapGet (mapDel s.units u.id) u.id = none
    exact mapGet_mapDel_self s.units u.id

/-- C9 counterexample: the claim says the SetPayload payload is attached
to every status push, including reload-handler pushes; but on a manager
whose payload is set, a successful output reload pushes Configuring and
Healthy with a nil payload. -/
theorem claim_C9_counterexample :
    payloadMgr.payload = some 7
    ∧ (handleUnitReload envOk payloadMgr uOut1).2 =
        [Effect.statusPush "out1" UnitState.configuring
          "reloading output component" none,
         Effect.statusPush "out1" UnitState.healthy
          "reloaded output component" none]
    ∧ (none : Option Payload) ≠ some 7 := by
  refine ⟨rfl, ?_, by decide⟩
  decide

/-- C9 (amended): the SetPayload payload is attached only to UpdateStatus
pushes (which target the main unit); every status push made by the reload
handlers and by the shutdown sequence passes a nil payload instead. -/
theorem claim_C9_payload_only_update_status (s : MgrState) (st : UnitState)
    (msg : String) (u : ClientUnit) (h : getUnit s s.mainUnit = some u) :
    updateStatus s st msg = [Effect.statusPush u.id st msg s.payload]
    ∧ (∀ (env : Env) (s2 : MgrState) (u2 : ClientUnit),
        allNilPayload (handleUnitReload env s2 u2).2 = true)
    ∧ (∀ (s2 : MgrState) (u2 : ClientUnit),
        allNilPayload (stopBeat s2 u2).2 = true) := by
  refine ⟨?_, fun env s2 u2 => handleUnitReload_nilPayload env s2 u2,
    fun s2 u2 => stopBeat_nilPayload s2 u2⟩
  unfold updateStatus getUnit at *
  rw [h]

/-- C9 witness: on a concrete manager with payload set and main unit
present, UpdateStatus attaches the payload while the shutdown pushes do
not. -/
theorem claim_C9_witness :
    getUnit runningMgr runningMgr.mainUnit = some uIn1
    ∧ updateStatus runningMgr UnitState.degraded "m" =
        [Effect.statusPush "in1" UnitState.degraded "m" (some 7)]
    ∧ allNilPayload (stopBeat runningMgr uIn1).2 = true := by
  have h := claim_C9_payload_only_update_status runningMgr UnitState.degraded "m" uIn1 rfl
  exact ⟨rfl, by simpa [uIn1, runningMgr] using h.1, h.2.2 runningMgr uIn1⟩

/-- C10: when the main unit has been designated but was later removed
from the registry, Stop() is a complete no-op: the state (including the
running flag) is unchanged and no effect is produced — no status push,
no callback, no client-connection stop. -/
theorem claim_C10_stop_noop_when_main_removed (s : MgrState)
    (_hset : s.mainUnit ≠ "") (habs : getUnit s s.mainUnit = none) :
    stop s = (s, []) := by
  unfold stop
  rw [habs]

/-- C10 witness: a concrete running manager whose designated main unit is
absent from the registry; Stop changes nothing and emits nothing. -/
theorem claim_C10_witness :
    orphanMgr.mainUnit ≠ ""
    ∧ getUnit orphanMgr orphanMgr.mainUnit = none
    ∧ stop orphanMgr = (orphanMgr, []) :=
  ⟨by decide, rfl, claim_C10_stop_noop_when_main_removed orphanMgr (by decide) rfl⟩

end ManagerV2
